import Mathlib

/-!
Shallow embedding of the logvisor logging library (AxioDL/logvisor):
the routing pipeline `Module::_vreport` / `Module::_vreportSource` /
`Module::report` / `Module::reportSource` and the sink registry
(`RegisterConsoleLogger`, `RegisterFileLogger`), the global counters
`_LogCounter` and `ErrorCount`, the `LogMutex` teardown behaviour, the
`FileLogger` per-event open/write/close cycle, and the free function
`quicklog`.

Concurrency is not modelled: every routing call runs under the single
global lock (`auto lk = LockLog();`), so the sequential semantics below
is exactly the body of the call as executed under the lock.  The lock
itself (`LogMutex`) is modelled separately for the teardown claim.

Machine integers: `_LogCounter` is a `uint64_t` and `ErrorCount` a
`size_t` (64 bits on the LP64/LLP64 targets this library builds for).
Both are modelled as `Nat` with every increment taken modulo `2 ^ 64`,
so the wraparound of `++` at the maximum value is preserved.
-/

namespace Logvisor

/-- Severity level for log messages (`enum Level`). -/
inductive Level
  | Info
  | Warning
  | Error
  | Fatal
deriving DecidableEq, Repr

/-- A sink (`ILogger` instance) in the registry.  The concrete subclasses
in the source are `ConsoleLogger` (stderr) and `FileLogger8`
(which stores its `m_filepath`). -/
inductive Sink
  | console
  | file (path : String)
deriving DecidableEq, Repr

/-- Whether a sink is a console-class sink (a `ConsoleLogger`). -/
def Sink.isConsole : Sink → Bool
  | .console => true
  | .file _ => false

/-- The scan predicate of `RegisterFileLogger`: `dynamic_cast<FileLogger8*>`
succeeds exactly on file sinks, and `!strcmp(filepath, filelogger->m_filepath)`
compares path contents. -/
def Sink.isFileWithPath (p : String) : Sink → Bool
  | .file q => q == p
  | .console => false

/-- Type identities (from the C++ side) that occur in the dedup scan of
`RegisterConsoleLogger`. -/
inductive CppTypeId
  | ptrILogger
  | classConsoleLogger
deriving DecidableEq, BEq, Repr

/-- The value of the C++ expression `typeid(logger.get())` inside
`RegisterConsoleLogger`.  `logger.get()` is a prvalue of static type
`ILogger*`; `typeid` applied to a non-polymorphic operand (a pointer is
never polymorphic) is resolved statically, so the result is
`typeid(ILogger*)` for every element, independent of the dynamic type of
the pointee. -/
def typeidOfLoggerGet (_ : Sink) : CppTypeId := CppTypeId.ptrILogger

/-- Model of `logvisor::RegisterConsoleLogger` (src/lib/logvisor.cpp:292-303):
scan `MainLoggers` comparing `typeid(logger.get())` with
`typeid(ConsoleLogger)`; if a match is found return, otherwise append a
newly constructed `ConsoleLogger`. -/
def RegisterConsoleLogger (MainLoggers : List Sink) : List Sink :=
  if MainLoggers.any (fun logger => typeidOfLoggerGet logger == CppTypeId.classConsoleLogger)
  then MainLoggers
  else MainLoggers ++ [Sink.console]

/-- Model of `logvisor::RegisterFileLogger(const char*)` (src/lib/logvisor.cpp:423-438):
scan `MainLoggers`; if some sink `dynamic_cast`s to `FileLogger8` and its
`m_filepath` compares `strcmp`-equal to `filepath`, return; otherwise
append a new `FileLogger8(filepath)`. -/
def RegisterFileLogger (filepath : String) (MainLoggers : List Sink) : List Sink :=
  if MainLoggers.any (Sink.isFileWithPath filepath)
  then MainLoggers
  else MainLoggers ++ [Sink.file filepath]

/-- Number of file sinks bound to path `p` in the registry. -/
def countFile (p : String) (MainLoggers : List Sink) : Nat :=
  MainLoggers.countP (Sink.isFileWithPath p)

/-- Modulus of the 64-bit machine counters: `_LogCounter` is `uint64_t`
and `ErrorCount` is `size_t` (64-bit on the LP64/LLP64 targets this
library builds for); the `++` of either wraps at this modulus. -/
def UINT64_MOD : Nat := 2 ^ 64

/-- The process-wide mutable state touched by a routing call:
`MainLoggers` (the sink registry), `_LogCounter` (global event counter)
and `ErrorCount` (global error counter).  The counters hold the machine
value of the corresponding 64-bit global; every increment below is taken
modulo `UINT64_MOD`, matching the wrapping `++` of the source. -/
structure LogState where
  MainLoggers : List Sink
  logCounter : Nat
  errorCount : Nat
deriving DecidableEq, Repr

/-- One invocation of a sink's `report`/`reportSource` virtual method
during dispatch: the sink, the module name, the severity, the optional
source location (`file`, `linenum`), and the format string (format
argument substitution is delegated to the fmt library and left
uninterpreted). -/
structure Dispatch where
  sink : Sink
  modName : String
  severity : Level
  source : Option (String × Nat)
  fmt : String
deriving DecidableEq, Repr

/-- Outcome of a routing call: either it returns to the caller, or it
reaches `logvisorAbort()` and the process terminates with the given
final state.  `logvisorAbort` is declared `[[noreturn]]` in the header;
its body is not under src/.  Modelled from the spec: it terminates the
process and never returns control to the caller (spec sections 4.5, 7). -/
inductive Outcome
  | returned (st : LogState)
  | aborted (st : LogState)
deriving DecidableEq, Repr

/-- The process state at the end of a routing call (at return, or at the
moment of termination for an aborted call). -/
def Outcome.state : Outcome → LogState
  | .returned st => st
  | .aborted st => st

/-- Whether the routing call terminated the process instead of
returning. -/
def Outcome.isAborted : Outcome → Bool
  | .returned _ => false
  | .aborted _ => true

/-- Model of `Module::_vreport` (src/unnamed/part_000:170-185), the body that runs
under the global lock: increment `_LogCounter`; if severity is `Fatal`
call `RegisterConsoleLogger()`; dispatch to every logger of
`MainLoggers` in order via `logger->report(...)`; `logvisorBp()` (a
no-op: `void logvisorBp() {}`); if `Fatal` call `logvisorAbort()`
(no return), else if `Error` increment `ErrorCount`.  The returned list
is the dispatch trace, in execution order. -/
def _vreport (modName : String) (severity : Level) (fmt : String) (st : LogState) :
    Outcome × List Dispatch :=
  let st1 : LogState := { st with logCounter := (st.logCounter + 1) % UINT64_MOD }
  let st2 : LogState :=
    if severity = Level.Fatal
    then { st1 with MainLoggers := RegisterConsoleLogger st1.MainLoggers }
    else st1
  let trace : List Dispatch :=
    st2.MainLoggers.map (fun logger => ⟨logger, modName, severity, none, fmt⟩)
  if severity = Level.Fatal then
    (Outcome.aborted st2, trace)
  else if severity = Level.Error then
    (Outcome.returned { st2 with errorCount := (st2.errorCount + 1) % UINT64_MOD }, trace)
  else
    (Outcome.returned st2, trace)

/-- Model of `Module::_vreportSource` (src/unnamed/part_000:187-202): identical to
`_vreport` except each logger receives `reportSource` with the source
location. -/
def _vreportSource (modName : String) (severity : Level) (file : String) (linenum : Nat)
    (fmt : String) (st : LogState) : Outcome × List Dispatch :=
  let st1 : LogState := { st with logCounter := (st.logCounter + 1) % UINT64_MOD }
  let st2 : LogState :=
    if severity = Level.Fatal
    then { st1 with MainLoggers := RegisterConsoleLogger st1.MainLoggers }
    else st1
  let trace : List Dispatch :=
    st2.MainLoggers.map (fun logger => ⟨logger, modName, severity, some (file, linenum), fmt⟩)
  if severity = Level.Fatal then
    (Outcome.aborted st2, trace)
  else if severity = Level.Error then
    (Outcome.returned { st2 with errorCount := (st2.errorCount + 1) % UINT64_MOD }, trace)
  else
    (Outcome.returned st2, trace)

/-- Model of `Module::report` (src/unnamed/part_000:212-219): if `MainLoggers` is
empty and severity is not `Fatal`, return immediately (complete no-op);
otherwise format the arguments and call `_vreport`. -/
def report (modName : String) (severity : Level) (fmt : String) (st : LogState) :
    Outcome × List Dispatch :=
  if st.MainLoggers.isEmpty ∧ severity ≠ Level.Fatal then
    (Outcome.returned st, [])
  else
    _vreport modName severity fmt st

/-- Model of `Module::reportSource` (src/unnamed/part_000:236-243): same skip
check, then `_vreportSource`. -/
def reportSource (modName : String) (severity : Level) (file : String) (linenum : Nat)
    (fmt : String) (st : LogState) : Outcome × List Dispatch :=
  if st.MainLoggers.isEmpty ∧ severity ≠ Level.Fatal then
    (Outcome.returned st, [])
  else
    _vreportSource modName severity file linenum fmt st

/-- The free function `quicklog` (src/unnamed/part_000:296-302):
`logvisor::MainLoggers[0]->report("quick", logvisor::Info, ...)`.
`std::vector::operator[]` performs no bounds check, so a non-empty
registry is a precondition; on an empty registry the access is undefined
behaviour, modelled as `none`.  On a non-empty registry the call invokes
`report` directly on the first registered sink only — it bypasses
`Module` routing entirely (no skip check, no lock, no counter update). -/
def quicklog (fmt : String) (st : LogState) : Option Dispatch :=
  match st.MainLoggers with
  | [] => none
  | logger :: _ => some ⟨logger, "quick", Level.Info, none, fmt⟩

/-- Model of `struct LogMutex` (src/unnamed/part_000:94-104): an `enabled` flag
(default true, cleared by the destructor) and a recursive mutex, modelled
by its held-recursion depth. -/
structure LogMutex where
  enabled : Bool
  lockDepth : Nat
deriving DecidableEq, Repr

/-- The kind of `std::unique_lock` returned by `LogMutex::lock`: one
that owns (acquired) the mutex, or the default-constructed empty lock
`{}` that holds no mutex. -/
inductive LockKind
  | owning
  | empty
deriving DecidableEq, Repr

/-- Model of `LogMutex::lock` (src/unnamed/part_000:98-103): if `enabled`,
construct a `unique_lock` on `mutex` (acquiring it — for a recursive
mutex held by the same thread this increments the recursion depth);
otherwise return the empty lock `{}` without touching the mutex. -/
def LogMutex.lock (m : LogMutex) : LogMutex × LockKind :=
  if m.enabled then ({ m with lockDepth := m.lockDepth + 1 }, LockKind.owning)
  else (m, LockKind.empty)

/-- The destructor of `LogMutex` (src/unnamed/part_000:97): sets
`enabled = false`. -/
def LogMutex.destruct (m : LogMutex) : LogMutex := { m with enabled := false }

/-- Model of `LockLog` (src/unnamed/part_000:111): `return _LogMutex.lock();`. -/
def LockLog (m : LogMutex) : LogMutex × LockKind := m.lock

/-- Iterated lock acquisition: the mutex state after `n` further calls
to `LogMutex::lock`. -/
def LogMutex.lockIter (m : LogMutex) : Nat → LogMutex
  | 0 => m
  | n + 1 => (m.lock).1.lockIter n

/-- Severity labels written by `FileLogger::_reportHead`
(src/lib/logvisor.cpp:340-356). -/
def severityLabel : Level → String
  | .Info => "INFO"
  | .Warning => "WARNING"
  | .Error => "ERROR"
  | .Fatal => "FATAL ERROR"

/-- The ambient inputs read by `FileLogger::_reportHead`: the formatted
elapsed-time prefix, `FrameIndex.load()`, and the `ThreadMap` entry for
the current thread (if any). -/
structure Ambient where
  uptimeStr : String
  frameIndex : Nat
  thrName : Option String
deriving DecidableEq, Repr

/-- A C `FILE*`: `some ()` for a successfully opened stream, `none` for
the null pointer returned by a failed `fopen`. -/
def FilePtr : Type := Option Unit

/-- Model of `FileLogger8::openFile` (src/lib/logvisor.cpp:420):
`fp = fopen(m_filepath, "a");` — the result is stored unchecked.
`openable` abstracts the file system: which paths `fopen(path, "a")`
succeeds on. -/
def FileLogger8.openFile (openable : String → Bool) (m_filepath : String) : FilePtr :=
  if openable m_filepath then some () else none

/-- Model of `fprintf`/`vfprintf` on a `FILE*`.  On a valid stream the text is
written; on a null stream the C standard imposes no requirement
(undefined behaviour, in practice a crash), modelled as `Except.error`. -/
def fprintfC (fp : FilePtr) (s : String) : Except Unit String :=
  match fp with
  | some _ => Except.ok s
  | none => Except.error ()

/-- Model of `fclose` on a `FILE*`: undefined behaviour on a null stream. -/
def fcloseC (fp : FilePtr) : Except Unit Unit :=
  match fp with
  | some _ => Except.ok ()
  | none => Except.error ()

/-- The header text assembled by `FileLogger::_reportHead`
(src/lib/logvisor.cpp:324-363): bracketed elapsed time, frame index when
non-zero, severity label, module name, optional source info in braces,
optional thread name in parentheses.  The source emits it as a sequence
of `fprintf` calls on `fp`; the concatenation below is the total text. -/
def FileLogger.reportHead (amb : Ambient) (modName : String) (sourceInfo : Option String)
    (severity : Level) : String :=
  "[" ++ amb.uptimeStr
      ++ (if amb.frameIndex ≠ 0 then "(" ++ toString amb.frameIndex ++ ") " else "")
      ++ severityLabel severity
      ++ " " ++ modName
      ++ (match sourceInfo with
          | some si => " \x7b" ++ si ++ "\x7d"
          | none => "")
      ++ (match amb.thrName with
          | some t => " (" ++ t ++ ")"
          | none => "")
      ++ "] "

/-- Model of `FileLogger::report` (src/lib/logvisor.cpp:365-374): take the
sink-local lock, `openFile()`, write the header, write the formatted
message (`vfprintf`), write a newline, `closeFile()` (`fclose(fp)`).
The result is the text appended to the file, or `Except.error ()` when
the call runs into undefined behaviour (every write and the close go
through the unchecked `fp`). -/
def FileLogger.report (openable : String → Bool) (m_filepath : String) (amb : Ambient)
    (modName : String) (severity : Level) (msg : String) : Except Unit String := do
  let fp := FileLogger8.openFile openable m_filepath
  let head ← fprintfC fp (FileLogger.reportHead amb modName none severity)
  let body ← fprintfC fp msg
  let nl ← fprintfC fp "\n"
  fcloseC fp
  pure (head ++ body ++ nl)

end Logvisor

namespace Logvisor

/-! Helper lemmas shared by several claim proofs. -/

theorem any_typeid_eq_false (regs : List Sink) :
    (regs.any fun logger => typeidOfLoggerGet logger == CppTypeId.classConsoleLogger) = false := by
  induction regs with
  | nil => rfl
  | cons a t ih =>
    have hba : (typeidOfLoggerGet a == CppTypeId.classConsoleLogger) = false := rfl
    simp [List.any_cons, hba, ih]

theorem registerConsoleLogger_eq_append (regs : List Sink) :
    RegisterConsoleLogger regs = regs ++ [Sink.console] := by
  simp [RegisterConsoleLogger, any_typeid_eq_false regs]

theorem report_state_eq (modName fmt : String) (severity : Level) (st : LogState) :
    (report modName severity fmt st).1.state =
      if st.MainLoggers.isEmpty ∧ severity ≠ Level.Fatal then st
      else
        { MainLoggers :=
            if severity = Level.Fatal then RegisterConsoleLogger st.MainLoggers
            else st.MainLoggers,
          logCounter := (st.logCounter + 1) % UINT64_MOD,
          errorCount :=
            if severity = Level.Error then (st.errorCount + 1) % UINT64_MOD
            else st.errorCount } := by
  cases severity <;> by_cases h : st.MainLoggers.isEmpty <;>
    simp [report, _vreport, Outcome.state, h]

theorem reportSource_state_eq (modName file fmt : String) (linenum : Nat) (severity : Level)
    (st : LogState) :
    (reportSource modName severity file linenum fmt st).1.state =
      if st.MainLoggers.isEmpty ∧ severity ≠ Level.Fatal then st
      else
        { MainLoggers :=
            if severity = Level.Fatal then RegisterConsoleLogger st.MainLoggers
            else st.MainLoggers,
          logCounter := (st.logCounter + 1) % UINT64_MOD,
          errorCount :=
            if severity = Level.Error then (st.errorCount + 1) % UINT64_MOD
            else st.errorCount } := by
  cases severity <;> by_cases h : st.MainLoggers.isEmpty <;>
    simp [reportSource, _vreportSource, Outcome.state, h]

/-! Claim theorems. -/

/-- C1: for every routing call with severity `Fatal` — whatever the prior
registry contents — the call auto-provisions a console-class sink (one
exists in the registry afterwards), dispatches the event to every sink
then in the registry, and terminates the process without returning to
the caller. -/
theorem fatal_report_provisions_console_dispatches_and_aborts
    (modName fmt : String) (st : LogState) :
    (report modName Level.Fatal fmt st).1.isAborted = true
    ∧ (∃ s ∈ ((report modName Level.Fatal fmt st).1.state).MainLoggers, s.isConsole = true)
    ∧ (report modName Level.Fatal fmt st).2 =
        ((report modName Level.Fatal fmt st).1.state).MainLoggers.map
          (fun logger => (⟨logger, modName, Level.Fatal, none, fmt⟩ : Dispatch))
    ∧ (report modName Level.Fatal fmt st).2 ≠ [] := by
  have hreg := registerConsoleLogger_eq_append st.MainLoggers
  refine ⟨?_, ?_, ?_, ?_⟩
  · simp [report, _vreport, Outcome.isAborted]
  · refine ⟨Sink.console, ?_, rfl⟩
    simp [report, _vreport, Outcome.state, hreg]
  · simp [report, _vreport, Outcome.state]
  · simp [report, _vreport, hreg]

/-- C2 counterexample: with one console sink registered and the event
counter at its `uint64_t` maximum `2 ^ 64 - 1`, a routed (non-skipped)
`Info` call wraps the counter to 0: it neither increases by exactly 1
nor avoids decreasing, refuting the claim at this concrete input. -/
theorem logCounter_wraps_at_max :
    ((report "m" Level.Info "f" ⟨[Sink.console], 2 ^ 64 - 1, 0⟩).1.state).logCounter = 0
    ∧ ((report "m" Level.Info "f" ⟨[Sink.console], 2 ^ 64 - 1, 0⟩).1.state).logCounter
        ≠ (2 ^ 64 - 1) + 1
    ∧ ((report "m" Level.Info "f" ⟨[Sink.console], 2 ^ 64 - 1, 0⟩).1.state).logCounter
        < 2 ^ 64 - 1 := by
  have h : ((report "m" Level.Info "f" ⟨[Sink.console], 2 ^ 64 - 1, 0⟩).1.state).logCounter
      = 0 := by
    rw [report_state_eq]
    norm_num [UINT64_MOD]
  refine ⟨h, ?_, ?_⟩ <;> rw [h] <;> norm_num

/-- C2 (amended): the global event counter is incremented modulo
`2 ^ 64` (its `uint64_t` width) on every routing call that is not
skipped — increasing by exactly 1 whenever it is below its maximum
`2 ^ 64 - 1`, and wrapping to 0 at the maximum, the single case where it
decreases — and does not change on calls skipped because the registry is
empty and severity is not `Fatal`. -/
theorem logCounter_per_routing_call (modName fmt : String) (severity : Level)
    (st : LogState) :
    ((st.MainLoggers ≠ [] ∨ severity = Level.Fatal) →
        ((report modName severity fmt st).1.state).logCounter
          = (st.logCounter + 1) % UINT64_MOD)
    ∧ ((st.MainLoggers ≠ [] ∨ severity = Level.Fatal) →
          st.logCounter + 1 < UINT64_MOD →
        ((report modName severity fmt st).1.state).logCounter = st.logCounter + 1)
    ∧ ((st.MainLoggers = [] ∧ severity ≠ Level.Fatal) →
        ((report modName severity fmt st).1.state).logCounter = st.logCounter) := by
  rw [report_state_eq]
  by_cases h : st.MainLoggers.isEmpty ∧ severity ≠ Level.Fatal
  · rw [if_pos h]
    refine ⟨?_, ?_, fun _ => rfl⟩
    · rintro (hne | hf)
      · exact absurd (List.isEmpty_iff.mp h.1) hne
      · exact absurd hf h.2
    · rintro (hne | hf) _
      · exact absurd (List.isEmpty_iff.mp h.1) hne
      · exact absurd hf h.2
  · rw [if_neg h]
    refine ⟨fun _ => rfl, fun _ hlt => Nat.mod_eq_of_lt hlt, ?_⟩
    exact fun hc => absurd ⟨List.isEmpty_iff.mpr hc.1, hc.2⟩ h

/-- C2 witness for the amended claim: a concrete non-skipped call (one
console sink, `Info`, counter 0, below the maximum) increments the
counter to exactly 1. -/
theorem logCounter_per_routing_call_witness :
    (([Sink.console] : List Sink) ≠ [] ∨ Level.Info = Level.Fatal)
    ∧ (0 : Nat) + 1 < UINT64_MOD
    ∧ ((report "m" Level.Info "f" ⟨[Sink.console], 0, 0⟩).1.state).logCounter = 0 + 1 :=
  ⟨Or.inl (by decide), by norm_num [UINT64_MOD],
    (logCounter_per_routing_call "m" "f" Level.Info ⟨[Sink.console], 0, 0⟩).2.1
      (Or.inl (by decide)) (by norm_num [UINT64_MOD])⟩

/-- C3 counterexample: a `Fatal` event routed with one console sink
registered reaches that sink (the dispatch trace is non-empty), yet the
error counter at process termination is still 0, not 1: the `Fatal` path
calls `logvisorAbort()` before the `else if (severity == Error)
++ErrorCount;` line, so `Fatal` never increments `ErrorCount`. -/
theorem errorCount_fatal_reaches_sink_unchanged :
    (report "m" Level.Fatal "f" ⟨[Sink.console], 0, 0⟩).2 ≠ []
    ∧ ((report "m" Level.Fatal "f" ⟨[Sink.console], 0, 0⟩).1.state).errorCount = 0 := by
  constructor
  · decide
  · rfl

/-- C3 (amended): the global error counter is incremented modulo
`2 ^ 64` (its `size_t` width) by a routed `Error` event that reaches at
least one sink — by exactly 1 whenever it is below its maximum — and is
unchanged for `Info` and `Warning` events, for `Fatal` events (the
process terminates before the increment), and for events that reach no
sink. -/
theorem errorCount_per_routing_call (modName fmt : String) (st : LogState) :
    (st.MainLoggers ≠ [] →
        ((report modName Level.Error fmt st).1.state).errorCount
          = (st.errorCount + 1) % UINT64_MOD)
    ∧ (st.MainLoggers ≠ [] → st.errorCount + 1 < UINT64_MOD →
        ((report modName Level.Error fmt st).1.state).errorCount = st.errorCount + 1)
    ∧ ((report modName Level.Info fmt st).1.state).errorCount = st.errorCount
    ∧ ((report modName Level.Warning fmt st).1.state).errorCount = st.errorCount
    ∧ ((report modName Level.Fatal fmt st).1.state).errorCount = st.errorCount
    ∧ (st.MainLoggers = [] →
        ((report modName Level.Error fmt st).1.state).errorCount = st.errorCount) := by
  refine ⟨?_, ?_, ?_, ?_, ?_, ?_⟩ <;> rw [report_state_eq]
  · intro hne
    rw [if_neg (by simp [List.isEmpty_iff, hne])]
    simp
  · intro hne hlt
    rw [if_neg (by simp [List.isEmpty_iff, hne])]
    simpa using Nat.mod_eq_of_lt hlt
  · by_cases h : st.MainLoggers.isEmpty <;> simp [h]
  · by_cases h : st.MainLoggers.isEmpty <;> simp [h]
  · simp
  · intro he
    rw [if_pos ⟨List.isEmpty_iff.mpr he, by simp⟩]

/-- C3 witness for the amended claim: with one console sink and the
error counter at 0 (below the maximum), a routed `Error` event
increments it to exactly 1. -/
theorem errorCount_per_routing_call_witness :
    (([Sink.console] : List Sink) ≠ [])
    ∧ (0 : Nat) + 1 < UINT64_MOD
    ∧ ((report "m" Level.Error "f" ⟨[Sink.console], 0, 0⟩).1.state).errorCount = 0 + 1 :=
  ⟨by decide, by norm_num [UINT64_MOD],
    (errorCount_per_routing_call "m" "f" ⟨[Sink.console], 0, 0⟩).2.1 (by decide)
      (by norm_num [UINT64_MOD])⟩

/-- C4 (code bug): console-sink registration is not idempotent.  The
dedup scan compares `typeid(logger.get())` — statically `typeid(ILogger*)`,
since the operand is a non-polymorphic pointer prvalue — with
`typeid(ConsoleLogger)`, which never match, so every call appends a new
`ConsoleLogger`.  Starting from the empty registry, two calls leave two
console sinks, contradicting the header's own documentation ("If there's
already a registered console logger, this is a no-op"). -/
theorem registerConsoleLogger_twice_two_consoles :
    RegisterConsoleLogger (RegisterConsoleLogger []) = [Sink.console, Sink.console] := by
  decide

/-- C5: a routing call with severity distinct from `Fatal` made while
the registry is empty is a complete no-op, for `report` and
`reportSource` alike: the returned state is the input state (registry,
event counter and error counter unchanged) and the dispatch trace is
empty (no sink method invoked). -/
theorem empty_registry_nonfatal_noop (modName file fmt : String) (linenum : Nat)
    (severity : Level) (st : LogState)
    (hempty : st.MainLoggers = []) (hsev : severity ≠ Level.Fatal) :
    report modName severity fmt st = (Outcome.returned st, [])
    ∧ reportSource modName severity file linenum fmt st = (Outcome.returned st, []) := by
  constructor
  · rw [report, if_pos ⟨List.isEmpty_iff.mpr hempty, hsev⟩]
  · rw [reportSource, if_pos ⟨List.isEmpty_iff.mpr hempty, hsev⟩]

/-- C5 witness: a `Warning` call on the empty registry leaves the state
untouched and invokes no sink. -/
theorem empty_registry_nonfatal_noop_witness :
    (([] : List Sink) = []) ∧ (Level.Warning ≠ Level.Fatal)
    ∧ report "m" Level.Warning "f" ⟨[], 5, 7⟩ = (Outcome.returned ⟨[], 5, 7⟩, []) :=
  ⟨rfl, by decide,
    (empty_registry_nonfatal_noop "m" "s.cpp" "f" 3 Level.Warning ⟨[], 5, 7⟩ rfl
      (by decide)).1⟩

/-- C6 (code bug): a failed file open is not swallowed.  `FileLogger8::openFile`
stores `fopen(m_filepath, "a")` unchecked, and `FileLogger::report`
immediately passes that `fp` to `fprintf`/`vfprintf`/`fclose`.  On a
path that cannot be opened the very first stream operation receives a
null `FILE*` — undefined behaviour (in practice a crash that takes down
the whole routing call) — rather than a silently dropped event for that
sink. -/
theorem fileLogger_report_failed_open_is_undefined_behaviour :
    FileLogger.report (fun _ => false) "/bad/dir/log.txt"
      ⟨"0.0001 ", 0, none⟩ "mod" Level.Info "x" = Except.error () := rfl

/-! Helper lemmas for file-sink registration (C7). -/

theorem any_isFileWithPath_eq_false_iff (p : String) (regs : List Sink) :
    (regs.any (Sink.isFileWithPath p) = false) ↔ countFile p regs = 0 := by
  simp [countFile, List.countP_eq_zero, List.any_eq_false]

theorem registerFileLogger_of_absent (q : String) (regs : List Sink)
    (h : countFile q regs = 0) :
    RegisterFileLogger q regs = regs ++ [Sink.file q] := by
  rw [RegisterFileLogger, if_neg]
  simp [(any_isFileWithPath_eq_false_iff q regs).mpr h]

theorem registerFileLogger_of_present (q : String) (regs : List Sink)
    (h : countFile q regs ≠ 0) :
    RegisterFileLogger q regs = regs := by
  rw [RegisterFileLogger, if_pos]
  rcases Bool.eq_false_or_eq_true (regs.any (Sink.isFileWithPath q)) with ht | hf
  · exact ht
  · exact absurd ((any_isFileWithPath_eq_false_iff q regs).mp hf) h

theorem countFile_register (p q : String) (regs : List Sink) :
    countFile p (RegisterFileLogger q regs)
      = if p = q ∧ countFile p regs = 0 then 1 else countFile p regs := by
  by_cases hq : countFile q regs = 0
  · rw [registerFileLogger_of_absent q regs hq]
    by_cases hpq : p = q
    · subst hpq
      rw [if_pos ⟨rfl, hq⟩]
      have hcons : countFile p (regs ++ [Sink.file p]) = countFile p regs + 1 := by
        simp [countFile, List.countP_append, List.countP_cons, Sink.isFileWithPath]
      rw [hcons, hq]
    · rw [if_neg (fun hc => hpq hc.1)]
      have hne : Sink.isFileWithPath p (Sink.file q) = false := by
        simp only [Sink.isFileWithPath, beq_eq_false_iff_ne, ne_eq]
        exact fun hc => hpq hc.symm
      simp [countFile, List.countP_append, List.countP_cons, hne]
  · rw [registerFileLogger_of_present q regs hq]
    by_cases hpq : p = q
    · subst hpq
      rw [if_neg (fun hc => hq hc.2)]
    · rw [if_neg (fun hc => hpq hc.1)]

theorem countFile_foldl (paths : List String) (regs : List Sink) (p : String) :
    countFile p (paths.foldl (fun r q => RegisterFileLogger q r) regs)
      = if countFile p regs = 0 ∧ p ∈ paths then 1 else countFile p regs := by
  induction paths generalizing regs with
  | nil => simp
  | cons q rest ih =>
    rw [List.foldl_cons, ih, countFile_register]
    by_cases hpq : p = q
    · subst hpq
      by_cases h0 : countFile p regs = 0 <;> simp [h0]
    · by_cases h0 : countFile p regs = 0 <;>
        by_cases hmem : p ∈ rest <;>
          simp [hpq, h0, hmem, List.mem_cons]

/-- C7: file-sink registration is idempotent per distinct path.
Starting from the empty registry, after any sequence of
`RegisterFileLogger` calls the registry holds exactly one file sink
bound to path `p` if `p` occurred in the sequence and none otherwise;
and a registration whose path has no file sink yet appends a new file
sink bound to that path. -/
theorem fileLogger_registration_idempotent_per_path (paths : List String) (p : String) :
    countFile p (paths.foldl (fun regs q => RegisterFileLogger q regs) [])
      = (if p ∈ paths then 1 else 0)
    ∧ ∀ (q : String) (regs : List Sink), countFile q regs = 0 →
        RegisterFileLogger q regs = regs ++ [Sink.file q] := by
  constructor
  · rw [countFile_foldl]
    simp [countFile]
  · exact registerFileLogger_of_absent

/-- C7 witness: registering paths "a", "b", "a" from the empty registry
leaves exactly one file sink for "a", and registering "c" on the empty
registry appends a file sink for "c". -/
theorem fileLogger_registration_idempotent_per_path_witness :
    countFile "a" ((["a", "b", "a"]).foldl (fun regs q => RegisterFileLogger q regs) []) = 1
    ∧ RegisterFileLogger "c" [] = [] ++ [Sink.file "c"] := by
  constructor
  · have h := (fileLogger_registration_idempotent_per_path ["a", "b", "a"] "a").1
    rw [h]
    decide
  · exact (fileLogger_registration_idempotent_per_path [] "x").2 "c" [] (by decide)

/-- C8: on every routing call that is not skipped, the event is
dispatched to every sink in the registry at dispatch time (for `Fatal`,
after the console auto-provision) exactly once and in registration
order: the dispatch trace is exactly the registry list, mapped to the
corresponding sink invocation.  This holds for both `report`
(`_vreport`) and `reportSource` (`_vreportSource`). -/
theorem dispatch_each_sink_once_in_order (modName file fmt : String) (linenum : Nat)
    (severity : Level) (st : LogState)
    (h : ¬(st.MainLoggers = [] ∧ severity ≠ Level.Fatal)) :
    (report modName severity fmt st).2 =
      ((report modName severity fmt st).1.state).MainLoggers.map
        (fun logger => (⟨logger, modName, severity, none, fmt⟩ : Dispatch))
    ∧ (reportSource modName severity file linenum fmt st).2 =
      ((reportSource modName severity file linenum fmt st).1.state).MainLoggers.map
        (fun logger => (⟨logger, modName, severity, some (file, linenum), fmt⟩ : Dispatch)) := by
  have h' : ¬(st.MainLoggers.isEmpty ∧ severity ≠ Level.Fatal) := by
    simpa [List.isEmpty_iff] using h
  constructor
  · rw [report, if_neg h']
    cases severity <;> simp [_vreport, Outcome.state]
  · rw [reportSource, if_neg h']
    cases severity <;> simp [_vreportSource, Outcome.state]

/-- C8 witness: an `Info` call with two registered sinks dispatches to
exactly those two sinks, in registration order. -/
theorem dispatch_each_sink_once_in_order_witness :
    ¬(([Sink.file "p", Sink.console] : List Sink) = [] ∧ Level.Info ≠ Level.Fatal)
    ∧ (report "m" Level.Info "f" ⟨[Sink.file "p", Sink.console], 0, 0⟩).2 =
        ((report "m" Level.Info "f" ⟨[Sink.file "p", Sink.console], 0, 0⟩).1.state).MainLoggers.map
          (fun logger => (⟨logger, "m", Level.Info, none, "f"⟩ : Dispatch)) :=
  ⟨by decide,
    (dispatch_each_sink_once_in_order "m" "s.cpp" "f" 3 Level.Info
      ⟨[Sink.file "p", Sink.console], 0, 0⟩ (by decide)).1⟩

/-- C9: once the `LogMutex` destructor has run (clearing `enabled`),
every subsequent `LockLog`/`LogMutex::lock` call returns the empty
`unique_lock` and leaves the mutex state — in particular its held
recursion depth — untouched: iterating `lock` any number of times after
teardown changes nothing. -/
theorem lock_noop_after_destruct (m : LogMutex) :
    (m.destruct).enabled = false
    ∧ LockLog m.destruct = (m.destruct, LockKind.empty)
    ∧ ∀ n : Nat, (m.destruct).lockIter n = m.destruct := by
  refine ⟨rfl, rfl, ?_⟩
  intro n
  induction n with
  | zero => rfl
  | succ k ih =>
    show ((m.destruct).lock).1.lockIter k = m.destruct
    have hl : ((m.destruct).lock).1 = m.destruct := rfl
    rw [hl, ih]

/-- C10: `quicklog` performs no empty-registry check: it indexes
`MainLoggers[0]` unconditionally, so a non-empty registry is a
precondition (the empty case is the unchecked `operator[]` out-of-range
access, modelled as `none` rather than a no-op return); on a non-empty
registry it reports a single `Info` event, module name "quick", through
the first registered sink only. -/
theorem quicklog_first_sink_only (fmt : String) (st : LogState) :
    (st.MainLoggers = [] → quicklog fmt st = none)
    ∧ ∀ (l : Sink) (rest : List Sink), st.MainLoggers = l :: rest →
        quicklog fmt st = some ⟨l, "quick", Level.Info, none, fmt⟩ := by
  constructor
  · intro h
    simp [quicklog, h]
  · intro l rest h
    simp [quicklog, h]

/-- C10 witness: with two registered sinks, `quicklog` reports through
the first one only, as an `Info` event from module "quick". -/
theorem quicklog_first_sink_only_witness :
    quicklog "f" ⟨[Sink.console, Sink.file "p"], 0, 0⟩
      = some ⟨Sink.console, "quick", Level.Info, none, "f"⟩ :=
  (quicklog_first_sink_only "f" ⟨[Sink.console, Sink.file "p"], 0, 0⟩).2
    Sink.console [Sink.file "p"] rfl

end Logvisor
